import Mathlib

/-!
Verification of the blind-signature benchmark core (`blind_sig_bench`).

The implementation works over the ristretto255 group, a cyclic group of
prime order

  ℓ = 2^252 + 27742317777372353535851937790883648493,

with scalar field `ℤ/ℓℤ`.  We shallowly embed the algebra by identifying a
group element with its discrete logarithm with respect to the basepoint
`G`: the group of points becomes the additive group `ZMod ℓ`, the basepoint
`G` becomes `1`, the group identity becomes `0`, point addition is `+` and
scalar multiplication is ring multiplication.  This identification is exact:
the ristretto255 group is cyclic of order `ℓ`, so `n ↦ n • G` is a group
isomorphism `ZMod ℓ ≃ Group`.

The hash functions (`Blake2b` instances in the source) are modelled as
explicit function parameters ("oracles") of the appropriate shape.  All
protocol algebra below is proved for *every* oracle; counterexamples
instantiate the oracle parameters with concrete functions.
-/

namespace BlindSigBench

/-- The order of the ristretto255 group (= the order of the Curve25519
scalar field), `ℓ = 2^252 + 27742317777372353535851937790883648493`. -/
def ell : ℕ := 2 ^ 252 + 27742317777372353535851937790883648493

/-- A scalar: an element of the scalar field `ℤ/ℓℤ`
(`curve25519_dalek::scalar::Scalar`). -/
abbrev Scalar : Type := ZMod ell

/-- A group element of the prime-order ristretto255 group, identified with
its discrete logarithm to the basepoint (`curve25519_dalek::ristretto::RistrettoPoint`). -/
abbrev Pt : Type := ZMod ell

/-- The basepoint `RISTRETTO_BASEPOINT_TABLE`; under the discrete-log
identification it is `1`. -/
def G : Pt := 1

/-- A message: a byte string (`&[u8]`). -/
abbrev Msg : Type := List ℕ

namespace Schnorr

/-!  ## Scheme A: the blind Schnorr scheme (`src/schnorr.rs`)

Randomness sampled inside a Rust function (`Scalar::random(rng)`) is made an
explicit argument of the embedded function, so every function is a pure
function of its inputs and its random tape, exactly as the source is a pure
function of its inputs and the bytes drawn from `rng`.  -/

/-- The hash oracle `H` used for the Fiat–Shamir challenge: in the source,
`Scalar::from_hash(Blake2b::default().chain(R'.to_bytes()).chain(m))`.
Its input is the point `R'` and the message `m`. -/
abbrev HashS : Type := Pt → Msg → Scalar

/-- `BlindSchnorr::keygen`: `x ← S; X := x·G`; returns `(privkey, pubkey)`. -/
def keygen (x : Scalar) : Scalar × Pt :=
  (x, x * G)

/-- Scheme A signature `(R', s')` (`schnorr::Signature`). -/
structure Signature where
  R_prime : Pt
  s_prime : Scalar
deriving DecidableEq, Repr

/-- `BlindSchnorr::verify`: recompute `c' = H(R', m)` and accept iff
`s'·G == R' + c'·X`. -/
def verify (H : HashS) (X : Pt) (m : Msg) (sig : Signature) : Bool :=
  decide (sig.s_prime * G = sig.R_prime + H sig.R_prime m * X)

/-- `BlindSchnorr::server1` (the signer move `sign1`): sample `r`, commit
`R := r·G`; the `_pubkey` argument is ignored by the source.  State is `r`,
the first message is `R`. -/
def server1 (r : Scalar) (_pubkey : Pt) : Scalar × Pt :=
  (r, r * G)

/-- Scheme A client state `(α, c, R, R')` (`schnorr::ClientState`). -/
structure ClientState where
  α : Scalar
  c : Scalar
  R : Pt
  R_prime : Pt
deriving DecidableEq, Repr

/-- `BlindSchnorr::client1` (the user move `user1`): sample blinding scalars
`α, β`; blind the commitment `R' := R + α·G + β·X`; derive `c' := H(R', m)`;
send `c := c' + β`. -/
def client1 (H : HashS) (α β : Scalar) (X : Pt) (m : Msg) (R : Pt) :
    ClientState × Scalar :=
  let R_prime : Pt := R + α * G + β * X
  let c_prime : Scalar := H R_prime m
  let c : Scalar := c_prime + β
  (⟨α, c, R, R_prime⟩, c)

/-- `BlindSchnorr::server2` (the signer move `sign2`): `s := r + c·x`. -/
def server2 (x r c : Scalar) : Scalar :=
  r + c * x

/-- `BlindSchnorr::client2` (the user move `user2`): check `s·G == R + c·X`
with the blinded challenge `c` from the client state; on failure return
`none` (abort); otherwise unblind `s' := s + α` and return `(R', s')`.
The message argument `m` is not used by the source body. -/
def client2 (X : Pt) (st : ClientState) (_m : Msg) (s : Scalar) :
    Option Signature :=
  if s * G = st.R + st.c * X then
    some ⟨st.R_prime, s + st.α⟩
  else
    none

end Schnorr

namespace Abe

/-!  ## Scheme B: the Abe scheme (`src/abe.rs`)

The second generator `h` (`RISTRETTO_ALT_GENERATOR`, a `hash_to_group` of a
fixed label) is modelled as an explicit parameter `h : Pt`.

The source declares three keyed `Blake2b` oracles `H1`, `H2`, `H3`
(`lazy_static`, keys `"Abe Blind Sig Oracle 1/2/3"`).  `H1` is applied to two
different input shapes: in `keygen` it is chained over the 64 bytes
`enc(h) ++ enc(y)`, and in `server1`/`client1` it is chained over the 32-byte
nonce `rnd`.  We model its input domain as the inductive type `H1In` below;
the two shapes have different encoded lengths, so an injective model of the
byte-level input is exactly a sum of the two shapes.  `H2` is declared by the
source but never called; it appears only in the spec-modelled definition
`server1_spec_z1` below. -/

/-- Nonce: the 32-byte random string `rnd`. -/
abbrev Nonce : Type := List ℕ

/-- Input domain of the oracle `H1`: either the pair of encoded points
`(h, y)` (64 bytes, used by `keygen`) or the 32-byte nonce `rnd`
(used by `server1` and `client1`).  The byte encodings of the two shapes
have different lengths, so the sum is a faithful injective model. -/
inductive H1In where
  | pts (h y : Pt)
  | nonce (rnd : Nonce)
deriving DecidableEq

/-- The point-valued oracle `H1` (`Blake2b` keyed with
`"Abe Blind Sig Oracle 1"`, output mapped to the group). -/
abbrev HashG1 : Type := H1In → Pt

/-- The point-valued oracle `H2` (`Blake2b` keyed with
`"Abe Blind Sig Oracle 2"`).  Declared by the source; its only intended use
(per the documentation) is deriving `z1` from `rnd`. -/
abbrev HashG2 : Type := Nonce → Pt

/-- The scalar-valued Fiat–Shamir oracle `H3` (`Blake2b` keyed with
`"Abe Blind Sig Oracle 3"`): input is the six transcript points
`ζ, ζ1, α, β1, β2, η` followed by the message. -/
abbrev HashS3 : Type := Pt → Pt → Pt → Pt → Pt → Pt → Msg → Scalar

/-- Scheme B public key `(y, z)` (`abe::Pubkey`). -/
structure Pubkey where
  y : Pt
  z : Pt
deriving DecidableEq, Repr

/-- `Abe::keygen`: `x ← S; y := x·G; z := H1(h, y)`; returns
`(x, (y, z))`.  NOTE: the source contains no retry on `z` being the group
identity, although its own documentation (`if z == 1: retry`) calls for one;
the returned `z` is whatever `H1` produced. -/
def keygen (H1 : HashG1) (h : Pt) (x : Scalar) : Scalar × Pubkey :=
  let y : Pt := x * G
  let z : Pt := H1 (.pts h y)
  (x, ⟨y, z⟩)

/-- Scheme B signer state `(u, s1, s2, d)` (`abe::ServerState`). -/
structure ServerState where
  u : Scalar
  s1 : Scalar
  s2 : Scalar
  d : Scalar
deriving DecidableEq, Repr

/-- Scheme B first signer message `(rnd, a, b1, b2)` (`abe::ServerResp1`). -/
structure ServerResp1 where
  rnd : Nonce
  a : Pt
  b1 : Pt
  b2 : Pt
deriving DecidableEq, Repr

/-- `Abe::server1` (the signer move `sign1`): derive `z1 := H1(rnd)` — the
source calls oracle `H1` here, not `H2` as its documentation states —
`z2 := z − z1`; sample `u, s1, s2, d`; commit `a := u·G`,
`b1 := s1·G + d·z1`, `b2 := s2·h + d·z2`. -/
def server1 (H1 : HashG1) (h : Pt) (pk : Pubkey) (rnd : Nonce)
    (u s1 s2 d : Scalar) : ServerState × ServerResp1 :=
  let z1 : Pt := H1 (.nonce rnd)
  let z2 : Pt := pk.z - z1
  let a : Pt := u * G
  let b1 : Pt := s1 * G + d * z1
  let b2 : Pt := s2 * h + d * z2
  (⟨u, s1, s2, d⟩, ⟨rnd, a, b1, b2⟩)

/-- Modelled from the spec: the spec's `sign1` derives `z1 := H2(rnd)` via
the oracle `H2`, independent of `H1`; the rest is as in `server1`.  The
source's `server1` instead calls `H1` on the nonce. -/
def server1_spec_z1 (H2 : HashG2) (h : Pt) (pk : Pubkey) (rnd : Nonce)
    (u s1 s2 d : Scalar) : ServerState × ServerResp1 :=
  let z1 : Pt := H2 rnd
  let z2 : Pt := pk.z - z1
  let a : Pt := u * G
  let b1 : Pt := s1 * G + d * z1
  let b2 : Pt := s2 * h + d * z2
  (⟨u, s1, s2, d⟩, ⟨rnd, a, b1, b2⟩)

/-- Scheme B client state (`abe::ClientState`). -/
structure ClientState where
  ζ : Pt
  ζ1 : Pt
  γ : Scalar
  τ : Scalar
  t1 : Scalar
  t2 : Scalar
  t3 : Scalar
  t4 : Scalar
  t5 : Scalar
deriving DecidableEq, Repr

/-- Scheme B second signer message `(r, c, s1, s2, d)` (`abe::ServerResp2`). -/
structure ServerResp2 where
  r : Scalar
  c : Scalar
  s1 : Scalar
  s2 : Scalar
  d : Scalar
deriving DecidableEq, Repr

/-- Scheme B signature `(ζ, ζ1, ρ, ω, σ1, σ2, δ, μ)` (`abe::Signature`). -/
structure Signature where
  ζ : Pt
  ζ1 : Pt
  ρ : Scalar
  ω : Scalar
  σ1 : Scalar
  σ2 : Scalar
  δ : Scalar
  μ : Scalar
deriving DecidableEq, Repr

/-- `Abe::verify`: recompute `ζ2 := ζ − ζ1`, `α := ρ·G + ω·y`,
`β1 := σ1·G + δ·ζ1`, `β2 := σ2·h + δ·ζ2`, `η := μ·z + δ·ζ`; accept iff
`H3(ζ, ζ1, α, β1, β2, η, m) == ω + δ`. -/
def verify (H3 : HashS3) (h : Pt) (pk : Pubkey) (m : Msg) (sig : Signature) :
    Bool :=
  let ζ2 : Pt := sig.ζ - sig.ζ1
  let α : Pt := sig.ρ * G + sig.ω * pk.y
  let β1 : Pt := sig.σ1 * G + sig.δ * sig.ζ1
  let β2 : Pt := sig.σ2 * h + sig.δ * ζ2
  let η : Pt := sig.μ * pk.z + sig.δ * sig.ζ
  decide (H3 sig.ζ sig.ζ1 α β1 β2 η m = sig.ω + sig.δ)

/-- `Abe::client1` (the user move `user1`): recompute `z1 := H1(rnd)` (the
source calls `H1` here, matching its own `server1`), blind the tag
`ζ := γ·z`, `ζ1 := γ·z1`, `ζ2 := ζ − ζ1`; blind the commitments with
`t1..t5`; derive `η := τ·z` and the challenge
`ε := H3(ζ, ζ1, α, β1, β2, η, m)`; send `e := ε − t2 − t4`.  The scalar `γ`
is sampled in a loop until non-zero; it enters here as the sampled value. -/
def client1 (H1 : HashG1) (H3 : HashS3) (h : Pt) (pk : Pubkey) (m : Msg)
    (resp1 : ServerResp1) (γ t1 t2 t3 t4 t5 τ : Scalar) :
    ClientState × Scalar :=
  let z1 : Pt := H1 (.nonce resp1.rnd)
  let ζ : Pt := γ * pk.z
  let ζ1 : Pt := γ * z1
  let ζ2 : Pt := ζ - ζ1
  let α : Pt := resp1.a + t1 * G + t2 * pk.y
  let β1 : Pt := γ * resp1.b1 + t3 * G + t4 * ζ1
  let β2 : Pt := γ * resp1.b2 + t5 * h + t4 * ζ2
  let η : Pt := τ * pk.z
  let ε : Scalar := H3 ζ ζ1 α β1 β2 η m
  let e : Scalar := ε - t2 - t4
  (⟨ζ, ζ1, γ, τ, t1, t2, t3, t4, t5⟩, e)

/-- `Abe::server2` (the signer move `sign2`): `c := e − d; r := u − c·x`;
respond `(r, c, s1, s2, d)`. -/
def server2 (x : Scalar) (st : ServerState) (e : Scalar) : ServerResp2 :=
  let c : Scalar := e - st.d
  let r : Scalar := st.u - c * x
  ⟨r, c, st.s1, st.s2, st.d⟩

/-- `Abe::client2` (the user move `user2`): unblind `ρ := r + t1`,
`ω := c + t2`, `σ1 := γ·s1 + t3`, `σ2 := γ·s2 + t5`, `δ := d + t4`,
`μ := τ − δ·γ`; return the candidate signature iff `verify` accepts it. -/
def client2 (H3 : HashS3) (h : Pt) (pk : Pubkey) (st : ClientState) (m : Msg)
    (resp2 : ServerResp2) : Option Signature :=
  let ρ : Scalar := resp2.r + st.t1
  let ω : Scalar := resp2.c + st.t2
  let σ1 : Scalar := st.γ * resp2.s1 + st.t3
  let σ2 : Scalar := st.γ * resp2.s2 + st.t5
  let δ : Scalar := resp2.d + st.t4
  let μ : Scalar := st.τ - δ * st.γ
  let tentative_sig : Signature := ⟨st.ζ, st.ζ1, ρ, ω, σ1, σ2, δ, μ⟩
  if verify H3 h pk m tentative_sig then
    some tentative_sig
  else
    none

end Abe

namespace Common

/-!  ## Wire decoding (`src/common.rs`)

`deserialize_scalar` calls `Scalar::from_canonical_bytes(bytes).expect(...)`
and `deserialize_ristretto_point` calls
`compressed.decompress().expect(...)`: on an invalid encoding both *panic*
(via `expect`) instead of returning the deserializer's structured error.
The outcome type below records the three possible results of the Rust
function: a decoded value, a structured `serde` error returned to the
caller, or a panic.  -/

/-- Outcome of a `serde` field deserializer: a value, a structured error
returned through `Result::Err`, or a panic raised inside the function. -/
inductive DecodeOutcome (α : Type) where
  | ok (a : α)
  | structuredError (msg : String)
  | panicked (msg : String)
deriving DecidableEq

/-- Little-endian value of a byte string (the integer encoded by the
32 bytes fed to `Scalar::from_canonical_bytes`). -/
def leVal (bs : List ℕ) : ℕ :=
  bs.foldr (fun b acc => b + 256 * acc) 0

/-- `common::deserialize_scalar` on an already-extracted 32-byte array:
`Scalar::from_canonical_bytes` succeeds exactly when the little-endian value
of the bytes is `< ℓ` (the canonical representatives); on a non-canonical
encoding the source panics via
`.expect("encountered an invalid scalar")`. -/
def deserialize_scalar (bs : List ℕ) : DecodeOutcome Scalar :=
  if leVal bs < ell then
    .ok ((leVal bs : ℕ) : Scalar)
  else
    .panicked "encountered an invalid scalar"

/-- `common::deserialize_ristretto_point` on an already-extracted 32-byte
array, parameterized by the ristretto decompression partial function `dec`
(`CompressedRistretto::decompress`, `none` on an invalid encoding): on a
failed decompression the source panics via
`.expect("encountered an invalid Ristretto point")`. -/
def deserialize_ristretto_point (dec : List ℕ → Option Pt) (bs : List ℕ) :
    DecodeOutcome Pt :=
  match dec bs with
  | some p => .ok p
  | none => .panicked "encountered an invalid Ristretto point"

end Common

namespace Web

/-!  ## The signer service handler (`src/webserver.rs`, `make_server_func`)

The handler closure is embedded as a pure transition function on the session
store.  The `DashMap<String, ServerState>` store is modelled as an
association list with distinct keys; `len`, `get`, `insert`, `remove` mirror
the map operations used by the source.  A request carries the `client_id`
header and the URL (`/sign1`, or `/sign2` with a deserialized body).  The
per-request randomness consumed by `S::sign1` is modelled by passing the
pair `(server_state, server_resp1)` that `sign1` would produce from that
tape, so the handler stays generic over the scheme exactly as
`make_server_func::<S, D>` is.  The `.expect("missing server state for this
client_id")` panic is a distinct response outcome. -/

/-- The session store: `DashMap<String, σ>` as an association list. -/
abbrev Store (σ : Type) : Type := List (String × σ)

/-- `DashMap::len`. -/
def Store.len {σ : Type} (st : Store σ) : ℕ := st.length

/-- Membership test (`global_state.get(&client_id).is_some()`). -/
def Store.containsId {σ : Type} (st : Store σ) (id : String) : Bool :=
  st.any (fun p => p.1 == id)

/-- `DashMap::get`. -/
def Store.getId {σ : Type} (st : Store σ) (id : String) : Option σ :=
  (st.find? (fun p => p.1 == id)).map (fun p => p.2)

/-- Remove the entry with the given key (`DashMap::remove`). -/
def Store.removeId {σ : Type} (st : Store σ) (id : String) : Store σ :=
  st.filter (fun p => p.1 != id)

/-- `DashMap::insert`: replaces any existing entry for the key. -/
def Store.insertId {σ : Type} (st : Store σ) (id : String) (v : σ) : Store σ :=
  (id, v) :: st.removeId id

/-- The kind of an inbound request: `GET /sign1`, or `GET /sign2` with a
deserialized `ClientResp` body of type `χ`. -/
inductive ReqKind (χ : Type) where
  | sign1
  | sign2 (body : χ)
deriving DecidableEq

/-- An inbound request: the `client_id` header plus the request kind. -/
structure Request (χ : Type) where
  clientId : String
  kind : ReqKind χ
deriving DecidableEq

/-- The handler's response: HTTP 409 `Busy`, a JSON `ServerResp1`, a JSON
`ServerResp2`, or the `.expect` panic on a missing session. -/
inductive Response (ρ1 ρ2 : Type) where
  | busy
  | json1 (r : ρ1)
  | json2 (r : ρ2)
  | panickedMissingSession
deriving DecidableEq

/-- The handler of `make_server_func`: admission check first — accept iff
`store.len() < MAX_PARALLEL_SESSIONS || store.get(&client_id).is_some()`,
otherwise return 409 with the store untouched; on accept dispatch on the
URL: `/sign1` runs the scheme's `sign1` (its result for the request's random
tape is `s1res`) and inserts the fresh state; `/sign2` looks the state up
(panicking if absent), runs `sign2` on the body, and removes the state. -/
def handler {σ ρ1 ρ2 χ : Type} (maxSessions : ℕ)
    (s1res : σ × ρ1) (sign2f : σ → χ → ρ2)
    (store : Store σ) (req : Request χ) : Response ρ1 ρ2 × Store σ :=
  if ¬ (store.len < maxSessions ∨ store.containsId req.clientId = true) then
    (.busy, store)
  else
    match req.kind with
    | .sign1 =>
        (.json1 s1res.2, store.insertId req.clientId s1res.1)
    | .sign2 body =>
        match store.getId req.clientId with
        | some st => (.json2 (sign2f st body), store.removeId req.clientId)
        | none => (.panickedMissingSession, store)

end Web

/-!  ## Concrete oracle valuations and inputs

Used to instantiate the oracle parameters in counterexamples and witnesses.
Under the discrete-log identification any function of the right type is an
admissible model of a hash oracle. -/

/-- The constant-zero Scheme A challenge oracle. -/
def HzeroS : Schnorr.HashS := fun _ _ => 0

/-- A Scheme A challenge oracle returning the discrete log of the hashed
point (ignoring the message). -/
def Hid : Schnorr.HashS := fun p _ => p

/-- The constant-zero Scheme B Fiat–Shamir oracle. -/
def H3zero : Abe.HashS3 := fun _ _ _ _ _ _ _ => 0

/-- A Scheme B `H1` valuation returning the basepoint on every input. -/
def H1constG : Abe.HashG1 := fun _ => G

/-- A Scheme B `H2` valuation returning the identity on every input. -/
def H2const0 : Abe.HashG2 := fun _ => 0

/-- A Scheme B `H1` valuation returning the group identity on every input. -/
def H1const0 : Abe.HashG1 := fun _ => 0

/-- A concrete 32-byte nonce (all zeros). -/
def r0 : Abe.Nonce := List.replicate 32 0

/-- The 32-byte string of `0xFF` bytes: its little-endian value is
`2^256 − 1 ≥ ℓ`, a non-canonical scalar encoding. -/
def ff32 : List ℕ := List.replicate 32 255

namespace Web

/-- Inserting a session makes the store contain its identifier. -/
lemma containsId_insertId {σ : Type} (st : Store σ) (id : String) (v : σ) :
    (st.insertId id v).containsId id = true := by
  simp [Store.insertId, Store.containsId]

/-- Removing a session removes its identifier from the store. -/
lemma containsId_removeId {σ : Type} (st : Store σ) (id : String) :
    (st.removeId id).containsId id = false := by
  simp only [Store.removeId, Store.containsId, List.any_eq_false]
  intro p hp
  have := List.of_mem_filter hp
  simpa using this

/-- Lookup of an identifier the store does not contain yields `none`. -/
lemma getId_eq_none {σ : Type} (st : Store σ) (id : String)
    (h : st.containsId id = false) : st.getId id = none := by
  simp only [Store.containsId, List.any_eq_false] at h
  simp only [Store.getId, List.find?_eq_none.2 h, Option.map_none']

/-- Lookup of an identifier the store contains yields a value. -/
lemma getId_isSome {σ : Type} (st : Store σ) (id : String)
    (h : st.containsId id = true) : ∃ v, st.getId id = some v := by
  simp only [Store.containsId, List.any_eq_true] at h
  obtain ⟨p, hp, hpid⟩ := h
  rcases hf : st.find? (fun q => q.1 == id) with _ | q
  · exact absurd hpid (by simpa using List.find?_eq_none.1 hf p hp)
  · exact ⟨q.2, by simp [Store.getId, hf]⟩

end Web

/-- C1: for Scheme A (BlindSchnorr), for every message `m`, every keypair
produced by `keygen`, and every value of the sampled randomness
(`r` for the signer, `α, β` for the client) under any challenge oracle `H`,
the honest sequential run `sign1 → user1 → sign2 → user2` ends with `user2`
returning a signature (never aborting), and `verify` accepts that signature
for `m` under the public key. -/
theorem schnorr_honest_run_correct (H : Schnorr.HashS) (x r α β : Scalar)
    (m : Msg) :
    ∃ sig : Schnorr.Signature,
      Schnorr.client2 (Schnorr.keygen x).2
        (Schnorr.client1 H α β (Schnorr.keygen x).2 m
          (Schnorr.server1 r (Schnorr.keygen x).2).2).1
        m
        (Schnorr.server2 x (Schnorr.server1 r (Schnorr.keygen x).2).1
          (Schnorr.client1 H α β (Schnorr.keygen x).2 m
            (Schnorr.server1 r (Schnorr.keygen x).2).2).2)
      = some sig
      ∧ Schnorr.verify H (Schnorr.keygen x).2 m sig = true := by
  simp only [Schnorr.keygen, Schnorr.server1, Schnorr.client1, Schnorr.server2,
    Schnorr.client2]
  rw [if_pos (by ring)]
  refine ⟨_, rfl, ?_⟩
  simp only [Schnorr.verify, decide_eq_true_eq]
  ring

/-- C2: for Scheme B (Abe), for every message `m`, every keypair produced by
`keygen`, and every value of the sampled randomness (nonce `rnd` and scalars
`u, s1, s2, d` for the signer; `γ ≠ 0` as sampled, `t1..t5, τ` for the
client) under any oracles `H1`/`H3`, the honest sequential run
`sign1 → user1 → sign2 → user2` ends with `user2` returning a signature
(never aborting), and `verify` accepts that signature for `m` under the
public key. -/
theorem abe_honest_run_correct (H1 : Abe.HashG1) (H3 : Abe.HashS3) (h : Pt)
    (x : Scalar) (rnd : Abe.Nonce) (u s1 s2 d γ t1 t2 t3 t4 t5 τ : Scalar)
    (m : Msg) (_hγ : γ ≠ 0) :
    ∃ sig : Abe.Signature,
      Abe.client2 H3 h (Abe.keygen H1 h x).2
        (Abe.client1 H1 H3 h (Abe.keygen H1 h x).2 m
          (Abe.server1 H1 h (Abe.keygen H1 h x).2 rnd u s1 s2 d).2
          γ t1 t2 t3 t4 t5 τ).1
        m
        (Abe.server2 x
          (Abe.server1 H1 h (Abe.keygen H1 h x).2 rnd u s1 s2 d).1
          (Abe.client1 H1 H3 h (Abe.keygen H1 h x).2 m
            (Abe.server1 H1 h (Abe.keygen H1 h x).2 rnd u s1 s2 d).2
            γ t1 t2 t3 t4 t5 τ).2)
      = some sig
      ∧ Abe.verify H3 h (Abe.keygen H1 h x).2 m sig = true := by
  simp only [Abe.keygen, Abe.server1, Abe.client1, Abe.server2, Abe.client2,
    Abe.verify, decide_eq_true_eq]
  ring_nf
  refine ⟨_, if_pos trivial, ?_⟩
  ring_nf

/-- Witness for C2: the honest Scheme B run at a concrete input (zero
randomness except `γ = 1`, constant oracles) produces a verifying
signature; the hypothesis `γ ≠ 0` holds at `γ = 1`. -/
theorem abe_honest_run_correct_witness :
    (1 : Scalar) ≠ 0 ∧
    ∃ sig : Abe.Signature,
      Abe.client2 H3zero 0 (Abe.keygen H1const0 0 0).2
        (Abe.client1 H1const0 H3zero 0 (Abe.keygen H1const0 0 0).2 []
          (Abe.server1 H1const0 0 (Abe.keygen H1const0 0 0).2 r0 0 0 0 0).2
          1 0 0 0 0 0 0).1
        []
        (Abe.server2 0
          (Abe.server1 H1const0 0 (Abe.keygen H1const0 0 0).2 r0 0 0 0 0).1
          (Abe.client1 H1const0 H3zero 0 (Abe.keygen H1const0 0 0).2 []
            (Abe.server1 H1const0 0 (Abe.keygen H1const0 0 0).2 r0 0 0 0 0).2
            1 0 0 0 0 0 0).2)
      = some sig
      ∧ Abe.verify H3zero 0 (Abe.keygen H1const0 0 0).2 [] sig = true :=
  ⟨by decide,
   abe_honest_run_correct H1const0 H3zero 0 0 r0 0 0 0 0 1 0 0 0 0 0 0 []
     (by decide)⟩

/-- Counterexample to C3: a client state not produced by `user1`
(`α = 0, c = 0, R = 0, R' = G`) under the public key generated from `x = 0`
(so `X` is the identity) makes Scheme A's `client2` return a signature —
its check `s·G == R + c·X` passes at `s = 0` — yet `verify` rejects that
signature: `s'·G = 0` but `R' + c'·X = G ≠ 0`, whatever the oracle value.
In particular `client2` does not recompute `c'` and does not verify the
candidate signature before returning it. -/
theorem schnorr_client2_unverified_counterexample :
    Schnorr.client2 (Schnorr.keygen 0).2 ⟨0, 0, 0, G⟩ [] 0 = some ⟨G, 0⟩ ∧
    Schnorr.verify HzeroS (Schnorr.keygen 0).2 [] ⟨G, 0⟩ = false := by
  constructor
  · decide
  · decide

/-- C3 (amended): Scheme B's `user2` returns a signature only if `verify`
accepts it, for every public key, client state, message and second signer
message (it calls `verify` on the candidate before returning); Scheme A's
`user2` checks only `s·G == R + c·X` with the blinded challenge, and the
returned signature is guaranteed to pass `verify` whenever the client state
was produced by `user1` for the same public key and message. -/
theorem client2_some_verify_amended :
    (∀ (H3 : Abe.HashS3) (h : Pt) (pk : Abe.Pubkey) (st : Abe.ClientState)
       (m : Msg) (resp2 : Abe.ServerResp2) (sig : Abe.Signature),
       Abe.client2 H3 h pk st m resp2 = some sig →
       Abe.verify H3 h pk m sig = true)
    ∧
    (∀ (H : Schnorr.HashS) (X R : Pt) (α β : Scalar) (m : Msg) (s : Scalar)
       (sig : Schnorr.Signature),
       Schnorr.client2 X (Schnorr.client1 H α β X m R).1 m s = some sig →
       Schnorr.verify H X m sig = true) := by
  constructor
  · intro H3 h pk st m resp2 sig hyp
    simp only [Abe.client2] at hyp
    split at hyp
    · cases hyp
      assumption
    · cases hyp
  · intro H X R α β m s sig hyp
    simp only [Schnorr.client1, Schnorr.client2] at hyp
    split at hyp
    case isTrue hcond =>
      cases hyp
      simp only [Schnorr.verify, decide_eq_true_eq]
      linear_combination hcond
    case isFalse => cases hyp

/-- Witness for C3 (amended): both implications applied at concrete inputs
where `user2` does return a signature (all-zero transcripts, constant
oracles). -/
theorem client2_some_verify_amended_witness :
    Abe.verify H3zero 0 ⟨0, 0⟩ [] ⟨0, 0, 0, 0, 0, 0, 0, 0⟩ = true ∧
    Schnorr.verify HzeroS 0 [] ⟨0, 0⟩ = true :=
  ⟨client2_some_verify_amended.1 H3zero 0 ⟨0, 0⟩ ⟨0, 0, 0, 0, 0, 0, 0, 0, 0⟩
     [] ⟨0, 0, 0, 0, 0⟩ ⟨0, 0, 0, 0, 0, 0, 0, 0⟩ (by decide),
   client2_some_verify_amended.2 HzeroS 0 0 0 0 [] 0 ⟨0, 0⟩ (by decide)⟩

/-- Counterexample to C4: under the oracle returning the discrete log of the
blinded commitment, the public key generated from `x = −1`, first signer
message `R = 0` and `α = 0`, the two distinct blinding scalars `β = 0` and
`β = 1` both make `user1` output the challenge `c = 0`: there is not exactly
one `β` per target challenge for fixed `α`. -/
theorem schnorr_blind_challenge_not_unique_beta :
    (Schnorr.client1 Hid 0 0 (Schnorr.keygen (-1)).2 [] 0).2 = 0 ∧
    (Schnorr.client1 Hid 0 1 (Schnorr.keygen (-1)).2 [] 0).2 = 0 ∧
    (0 : Scalar) ≠ 1 :=
  ⟨by decide, by decide, by decide⟩

/-- C4 (amended): for Scheme A, for every challenge oracle, public key `X`,
first signer message `R` and message `m`, the joint map from the blinding
pair `(α, β)` to the pair (blinded commitment `R'`, blinded challenge `c`)
produced by `user1` is a bijection: every target pair `(R', c)` is hit by
exactly one `(α, β)`.  Hence over uniformly random `(α, β)` the observable
`(R', c)` — in particular the challenge message — is uniformly distributed
and carries no information about the message or the true challenge. -/
theorem schnorr_blinding_bijection (H : Schnorr.HashS) (X R : Pt) (m : Msg)
    (Rt : Pt) (ct : Scalar) :
    ∃! p : Scalar × Scalar,
      (Schnorr.client1 H p.1 p.2 X m R).1.R_prime = Rt ∧
      (Schnorr.client1 H p.1 p.2 X m R).2 = ct := by
  have hG : G = (1 : Pt) := rfl
  have hkey : R + (Rt - R - (ct - H Rt m) * X) * G + (ct - H Rt m) * X = Rt := by
    rw [hG]; ring
  refine ⟨(Rt - R - (ct - H Rt m) * X, ct - H Rt m), ⟨?_, ?_⟩, ?_⟩
  · show R + (Rt - R - (ct - H Rt m) * X) * G + (ct - H Rt m) * X = Rt
    exact hkey
  · show H (R + (Rt - R - (ct - H Rt m) * X) * G + (ct - H Rt m) * X) m +
        (ct - H Rt m) = ct
    rw [hkey]; ring
  · rintro ⟨a, b⟩ ⟨h1, h2⟩
    simp only [Schnorr.client1] at h1 h2
    rw [h1] at h2
    have hb : b = ct - H Rt m := by linear_combination h2
    rw [hG] at h1
    have ha : a = Rt - R - (ct - H Rt m) * X := by
      rw [hb] at h1
      linear_combination h1
    simp only [Prod.mk.injEq]
    exact ⟨ha, hb⟩

/-- C5 (code bug): the source derives `z1` via the oracle `H1` — the same
keyed oracle `keygen` uses for the tag key — not via `H2` as the claim, the
spec, and the source's own comments (`z₁ := H₂(rnd)`) state; `H2` is
declared and never called.  First two conjuncts: in both `sign1` and
`user1` the derived `z1` is `H1(rnd)` for every oracle valuation.  Last
three conjuncts evaluate the failing input: with `H1` constantly the
basepoint and `H2` constantly the identity, the commitment `b1` produced by
the source's `sign1` (at `s1 = 0, d = 1`) is the basepoint, while the
spec-modelled `sign1` (which calls `H2`) produces the identity — the two
oracles differ at the nonce, so the code's `z1` is not `H2(rnd)`. -/
theorem abe_z1_uses_H1_not_H2 :
    (∀ (H1 : Abe.HashG1) (h : Pt) (pk : Abe.Pubkey) (rnd : Abe.Nonce)
       (u s1 s2 d : Scalar),
       (Abe.server1 H1 h pk rnd u s1 s2 d).2.b1 =
         s1 * G + d * H1 (.nonce rnd)) ∧
    (∀ (H1 : Abe.HashG1) (H3 : Abe.HashS3) (h : Pt) (pk : Abe.Pubkey)
       (m : Msg) (resp1 : Abe.ServerResp1) (γ t1 t2 t3 t4 t5 τ : Scalar),
       (Abe.client1 H1 H3 h pk m resp1 γ t1 t2 t3 t4 t5 τ).1.ζ1 =
         γ * H1 (.nonce resp1.rnd)) ∧
    (Abe.server1 H1constG 0 ⟨0, 0⟩ r0 0 0 0 1).2.b1 = G ∧
    (Abe.server1_spec_z1 H2const0 0 ⟨0, 0⟩ r0 0 0 0 1).2.b1 = 0 ∧
    H1constG (.nonce r0) ≠ H2const0 r0 :=
  ⟨fun _ _ _ _ _ _ _ _ => rfl, fun _ _ _ _ _ _ _ _ _ _ _ _ _ => rfl,
   by decide, by decide, by decide⟩

/-- C7 (code bug): Scheme B's `keygen` performs no retry when the tag key
`z = H1(h, y)` is the group identity, although its own documentation
(`if z == 1: retry`) and the claim call for one: for every oracle valuation
it returns `z` exactly as `H1` produced it (first conjunct), and under the
valuation sending everything to the identity it returns a public key whose
tag key is the identity (second conjunct), contradicting the claim that the
returned `z` is never the identity. -/
theorem abe_keygen_no_identity_retry :
    (∀ (H1 : Abe.HashG1) (h : Pt) (x : Scalar),
       (Abe.keygen H1 h x).2.z = H1 (.pts h (x * G))) ∧
    (Abe.keygen H1const0 0 5).2.z = 0 :=
  ⟨fun _ _ _ => rfl, by decide⟩

/-- Counterexample to C6: the all-`0xFF` 32-byte string is a non-canonical
scalar encoding (its value `2^256 − 1` is `≥ ℓ`), and on it
`deserialize_scalar` panics (the source's
`.expect("encountered an invalid scalar")`) instead of surfacing a
structured decode failure to the caller. -/
theorem deserialize_scalar_panics_counterexample :
    ¬ Common.leVal ff32 < ell ∧
    Common.deserialize_scalar ff32 =
      .panicked "encountered an invalid scalar" := by
  refine ⟨by decide, ?_⟩
  simp only [Common.deserialize_scalar]
  rw [if_neg (by decide)]

/-- C6 (amended): a 32-byte string that is a non-canonical scalar encoding,
or that fails ristretto decompression, is rejected before use — the decoder
never returns a value for it — but the failure is a panic raised inside the
deserializer by `.expect`, not a structured decode failure returned to the
caller. -/
theorem deserialize_invalid_panics :
    (∀ bs : List ℕ, ¬ Common.leVal bs < ell →
       Common.deserialize_scalar bs =
         .panicked "encountered an invalid scalar") ∧
    (∀ (dec : List ℕ → Option Pt) (bs : List ℕ), dec bs = none →
       Common.deserialize_ristretto_point dec bs =
         .panicked "encountered an invalid Ristretto point") := by
  constructor
  · intro bs hbs
    simp [Common.deserialize_scalar, hbs]
  · intro dec bs hd
    simp [Common.deserialize_ristretto_point, hd]

/-- Witness for C6 (amended): the all-`0xFF` non-canonical scalar encoding
and an always-failing decompression, both at concrete inputs. -/
theorem deserialize_invalid_panics_witness :
    Common.deserialize_scalar ff32 =
      .panicked "encountered an invalid scalar" ∧
    Common.deserialize_ristretto_point (fun _ => none) [] =
      .panicked "encountered an invalid Ristretto point" :=
  ⟨deserialize_invalid_panics.1 ff32 (by decide),
   deserialize_invalid_panics.2 (fun _ => none) [] rfl⟩

/-- C8: for every inbound request, a request whose session identifier is
already in the store is never answered `Busy`, regardless of store size; a
request with a new identifier is rejected exactly when
`store.len() < MAX_PARALLEL_SESSIONS` fails, and the rejection returns
`Busy` (HTTP 409) with the store unchanged and no scheme computation
reflected in the response; a new identifier under the bound is never
answered `Busy`. -/
theorem handler_admission_policy {σ χ ρ1 ρ2 : Type} (maxS : ℕ)
    (s1res : σ × ρ1) (s2f : σ → χ → ρ2) (store : Web.Store σ)
    (req : Web.Request χ) :
    (store.containsId req.clientId = true →
       (Web.handler maxS s1res s2f store req).1 ≠ .busy) ∧
    (store.containsId req.clientId = false → ¬ store.len < maxS →
       Web.handler maxS s1res s2f store req = (.busy, store)) ∧
    (store.containsId req.clientId = false → store.len < maxS →
       (Web.handler maxS s1res s2f store req).1 ≠ .busy) := by
  refine ⟨?_, ?_, ?_⟩
  · intro h1
    simp only [Web.handler]
    rw [if_neg (by simp [h1])]
    cases req.kind with
    | sign1 => simp
    | sign2 b =>
        cases hg : store.getId req.clientId <;> simp [hg]
  · intro h1 h2
    simp only [Web.handler]
    rw [if_pos (by simp [h1, h2])]
  · intro h1 h2
    simp only [Web.handler]
    rw [if_neg (by simp [h2])]
    cases req.kind with
    | sign1 => simp
    | sign2 b =>
        cases hg : store.getId req.clientId <;> simp [hg]

/-- Witness for C8: a store holding session `"a"` at capacity 1 — the
request for `"a"` is accepted, a `sign1` for the new identifier `"b"` is
answered `Busy` with the store unchanged, and under capacity 2 the same new
identifier is accepted. -/
theorem handler_admission_policy_witness :
    (Web.handler 1 ((0 : ℕ), (0 : ℕ)) (fun (_ : ℕ) (_ : ℕ) => (0 : ℕ))
       [("a", 0)] ⟨"a", .sign1⟩).1 ≠ .busy ∧
    Web.handler 1 ((0 : ℕ), (0 : ℕ)) (fun (_ : ℕ) (_ : ℕ) => (0 : ℕ))
       [("a", 0)] ⟨"b", .sign1⟩ = (.busy, [("a", 0)]) ∧
    (Web.handler 2 ((0 : ℕ), (0 : ℕ)) (fun (_ : ℕ) (_ : ℕ) => (0 : ℕ))
       [("a", 0)] ⟨"b", .sign1⟩).1 ≠ .busy :=
  ⟨(handler_admission_policy 1 ((0 : ℕ), (0 : ℕ))
      (fun (_ : ℕ) (_ : ℕ) => (0 : ℕ)) [("a", 0)] ⟨"a", .sign1⟩).1
      (by decide),
   (handler_admission_policy 1 ((0 : ℕ), (0 : ℕ))
      (fun (_ : ℕ) (_ : ℕ) => (0 : ℕ)) [("a", 0)] ⟨"b", .sign1⟩).2.1
      (by decide) (by decide),
   (handler_admission_policy 2 ((0 : ℕ), (0 : ℕ))
      (fun (_ : ℕ) (_ : ℕ) => (0 : ℕ)) [("a", 0)] ⟨"b", .sign1⟩).2.2
      (by decide) (by decide)⟩

/-- C9: session lifecycle.  After an accepted `sign1` for a fresh
identifier the store contains it; a `sign2` for a live identifier completes
(returning the second signer message) and afterwards the store no longer
contains it; a second `sign2` for the same identifier — one with no live
signer session state — never completes: it is answered `Busy` or by the
missing-session panic (fatal to that request alone, the store left
unchanged), never by a `sign2` response. -/
theorem handler_session_lifecycle {σ χ ρ1 ρ2 : Type} (maxS : ℕ)
    (s1res : σ × ρ1) (s2f : σ → χ → ρ2) (store : Web.Store σ) (id : String)
    (body : χ) :
    (store.containsId id = false → store.len < maxS →
       (Web.handler maxS s1res s2f store ⟨id, .sign1⟩).2.containsId id
         = true) ∧
    (store.containsId id = true →
       (Web.handler maxS s1res s2f store ⟨id, .sign2 body⟩).2.containsId id
         = false ∧
       (∃ r2, (Web.handler maxS s1res s2f store ⟨id, .sign2 body⟩).1
         = .json2 r2)) ∧
    (store.containsId id = false →
       ((Web.handler maxS s1res s2f store ⟨id, .sign2 body⟩).1 = .busy ∨
        (Web.handler maxS s1res s2f store ⟨id, .sign2 body⟩).1
          = .panickedMissingSession) ∧
       (Web.handler maxS s1res s2f store ⟨id, .sign2 body⟩).2 = store) := by
  refine ⟨?_, ?_, ?_⟩
  · intro _h1 h2
    simp only [Web.handler]
    rw [if_neg (by simp [h2])]
    simpa using Web.containsId_insertId store id s1res.1
  · intro h1
    obtain ⟨v, hv⟩ := Web.getId_isSome store id h1
    simp only [Web.handler]
    rw [if_neg (by simp [h1])]
    simp only [hv]
    exact ⟨by simpa using Web.containsId_removeId store id, ⟨_, rfl⟩⟩
  · intro h1
    by_cases h2 : store.len < maxS
    · simp only [Web.handler]
      rw [if_neg (by simp [h2])]
      simp [Web.getId_eq_none store id h1]
    · simp only [Web.handler]
      rw [if_pos (by simp [h1, h2])]
      simp

/-- Witness for C9: concrete runs — a `sign1` for the fresh identifier
`"a"` on the empty store leaves the store containing `"a"`; a `sign2` on a
store holding `"a"` completes and removes it; a second `sign2` for `"a"` on
the now-empty store is not answered with a `sign2` response and leaves the
store unchanged. -/
theorem handler_session_lifecycle_witness :
    (Web.handler 1 ((0 : ℕ), (0 : ℕ)) (fun (_ : ℕ) (_ : ℕ) => (0 : ℕ))
       ([] : Web.Store ℕ) ⟨"a", .sign1⟩).2.containsId "a" = true ∧
    ((Web.handler 1 ((0 : ℕ), (0 : ℕ)) (fun (_ : ℕ) (_ : ℕ) => (0 : ℕ))
       [("a", 0)] ⟨"a", .sign2 0⟩).2.containsId "a" = false ∧
     (∃ r2, (Web.handler 1 ((0 : ℕ), (0 : ℕ))
         (fun (_ : ℕ) (_ : ℕ) => (0 : ℕ))
         [("a", 0)] ⟨"a", .sign2 0⟩).1 = .json2 r2)) ∧
    (((Web.handler 1 ((0 : ℕ), (0 : ℕ)) (fun (_ : ℕ) (_ : ℕ) => (0 : ℕ))
        ([] : Web.Store ℕ) ⟨"a", .sign2 0⟩).1 = .busy ∨
      (Web.handler 1 ((0 : ℕ), (0 : ℕ)) (fun (_ : ℕ) (_ : ℕ) => (0 : ℕ))
        ([] : Web.Store ℕ) ⟨"a", .sign2 0⟩).1 = .panickedMissingSession) ∧
     (Web.handler 1 ((0 : ℕ), (0 : ℕ)) (fun (_ : ℕ) (_ : ℕ) => (0 : ℕ))
        ([] : Web.Store ℕ) ⟨"a", .sign2 0⟩).2 = ([] : Web.Store ℕ)) :=
  ⟨(handler_session_lifecycle 1 ((0 : ℕ), (0 : ℕ))
      (fun (_ : ℕ) (_ : ℕ) => (0 : ℕ)) ([] : Web.Store ℕ) "a" 0).1
      (by decide) (by decide),
   (handler_session_lifecycle 1 ((0 : ℕ), (0 : ℕ))
      (fun (_ : ℕ) (_ : ℕ) => (0 : ℕ)) [("a", 0)] "a" 0).2.1 (by decide),
   (handler_session_lifecycle 1 ((0 : ℕ), (0 : ℕ))
      (fun (_ : ℕ) (_ : ℕ) => (0 : ℕ)) ([] : Web.Store ℕ) "a" 0).2.2
      (by decide)⟩

/-- C10: Scheme A's `sign1` does not depend on its public-key argument: for
every fixed random tape `r`, running it with any two public keys yields
the identical signer state and identical first message. -/
theorem schnorr_server1_pubkey_independent (r : Scalar) (X1 X2 : Pt) :
    Schnorr.server1 r X1 = Schnorr.server1 r X2 :=
  rfl

end BlindSigBench
